import Mathlib

/-!
Shallow embedding of the `panos_ha` and `panos_gre_tunnel` Ansible modules
(pan-os-ansible collection) and proofs about their parameter grouping,
desired-tree construction, reconciliation control flow and commit gating.

Python values that can appear as module parameter values are modelled by
`PVal`; an Ansible "unset" option is the explicit `PVal.none` marker
(Python `None`), distinct from falsy values such as `false`, `0` or `""`.
-/

/-- A Python-level parameter value: `None`, a string, an int, or a bool. -/
inductive PVal where
  | none
  | str (s : String)
  | int (n : Int)
  | bool (b : Bool)
deriving DecidableEq

/-- `x is not None` in Python. -/
def PVal.isSet : PVal → Bool
  | .none => false
  | _ => true

/-- Python truthiness of a parameter value (`None` is falsy, `bool` is itself,
an int is truthy iff nonzero, a string iff nonempty). -/
def PVal.truthy : PVal → Bool
  | .none => false
  | .str s => !(s.isEmpty)
  | .int n => n != 0
  | .bool b => b

/-- `k.startswith(p)` on Python strings, modelled on the character lists. -/
def startsWithStr (k p : String) : Bool :=
  p.toList.isPrefixOf k.toList

/-- One step bound by fuel of Python `str.replace`: scan left to right and
replace each non-overlapping occurrence of `pat` by `repl`.  The fuel is the
length of the scanned list, which bounds the recursion depth. -/
def pyReplaceFuel : Nat → List Char → List Char → List Char → List Char
  | 0, s, _, _ => s
  | _ + 1, [], _, _ => []
  | n + 1, c :: rest, pat, repl =>
    if pat.isPrefixOf (c :: rest) && !pat.isEmpty then
      repl ++ pyReplaceFuel n ((c :: rest).drop pat.length) pat repl
    else
      c :: pyReplaceFuel n rest pat repl

/-- Python `s.replace(pat, repl)` (for nonempty `pat`): replaces every
non-overlapping occurrence of `pat` in `s`, scanning left to right. -/
def pyReplaceStr (s pat repl : String) : String :=
  ⟨pyReplaceFuel s.toList.length s.toList pat.toList repl.toList⟩

/-- Strip `p` from the front of `k` if and only if `k` starts with `p`;
otherwise return `k` unchanged.  This is the "leading-strip" reference
function the replace-based rewriting is compared against. -/
def stripLeading (p k : String) : String :=
  if p.toList.isPrefixOf k.toList then ⟨k.toList.drop p.toList.length⟩ else k

/-- Whether `pat` occurs as a contiguous substring of `s` (at any position). -/
def containsSub : List Char → List Char → Bool
  | [], pat => pat.isEmpty
  | c :: rest, pat => pat.isPrefixOf (c :: rest) || containsSub rest pat

/-- Look up a field in a kwargs-style mapping; missing fields read as `None`. -/
def lookupField (spec : List (String × PVal)) (f : String) : PVal :=
  match spec.find? (fun kv => kv.1 == f) with
  | some kv => kv.2
  | Option.none => PVal.none

/-! ## panos_ha: argument schema (from `setup_args`) -/

/-- The keys of `setup_args()` in `panos_ha.py`, in declaration order. -/
def setupArgsKeys : List String :=
  ["commit", "ha_enabled", "ha_group_id", "ha_config_sync", "ha_peer_ip",
   "ha_peer_ip_backup", "ha_mode", "ha_passive_link_state", "ha_state_sync",
   "ha_ha2_keepalive", "ha_ha2_keepalive_action", "ha_ha2_keepalive_threshold",
   "ha_device_id", "ha_session_owner_selection", "ha_session_setup",
   "ha_tentative_hold_time", "ha_sync_qos", "ha_sync_virtual_router",
   "ha_ip_hash_key",
   "ha1_ip_address", "ha1_netmask", "ha1_port", "ha1_gateway",
   "ha1b_ip_address", "ha1b_netmask", "ha1b_port", "ha1b_gateway",
   "ha2_ip_address", "ha2_netmask", "ha2_port", "ha2_gateway",
   "ha2b_ip_address", "ha2b_netmask", "ha2b_port", "ha2b_gateway",
   "ha3_port"]

/-- Modelled from the spec: the keys the shared connection helper
(`get_connection` in the collection's module_utils, not under `src/`)
contributes to the module's argument spec — the connection, credential,
template-scoping and state-control options.  The spec describes them as the
"connection/auth/state-control options" of the fixed exclusion list. -/
def helperAddedKeys : List String :=
  ["provider", "ip_address", "username", "password", "api_key", "port",
   "state", "template", "template_stack", "vsys"]

/-- All keys of `helper.argument_spec` for `panos_ha`. -/
def argSpecKeys : List String := setupArgsKeys ++ helperAddedKeys

/-- The `exclude_list` of `panos_ha.main`, verbatim from the source. -/
def excludeList : List String :=
  ["ip_address", "username", "password", "api_key", "state", "commit",
   "provider", "template", "template_stack", "vsys", "port"]

/-- Schema defaults of `setup_args()`; keys without a default map to `None`. -/
def haDefault : String → PVal
  | "ha_enabled" => .bool true
  | "ha_group_id" => .int 1
  | "ha_config_sync" => .bool true
  | "ha_mode" => .str "active-passive"
  | "ha_passive_link_state" => .str "auto"
  | "ha_state_sync" => .bool false
  | "ha_ha2_keepalive" => .bool true
  | "ha2_port" => .str "ha2-a"
  | _ => .none

/-- Modelled from the spec: `AnsibleModule` option handling (external to the
module source) fills `module.params`: a supplied non-null value is used as
given; an unsupplied (or null) option takes the schema default when one is
declared and is the explicit absence marker `None` otherwise.  The spec:
"unset values are represented as an explicit absence marker" and the schema
default "is used only when the option is not supplied". -/
def moduleParams (user : String → Option PVal) (k : String) : PVal :=
  match user k with
  | some v => if v = PVal.none then haDefault k else v
  | Option.none => haDefault k

/-! ## panos_ha: parameter grouping (from `main`) -/

/-- The keys surviving the exclusion filter, in argument-spec order:
`(k for k in helper.argument_spec.keys() if k not in exclude_list)`. -/
def specIncludedKeys : List String :=
  argSpecKeys.filter (fun k => !(excludeList.contains k))

/-- `spec_included` of `panos_ha.main`: the filtered parameter mapping. -/
def spec_included (params : String → PVal) : List (String × PVal) :=
  specIncludedKeys.map (fun k => (k, params k))

/-- One group comprehension of `panos_ha.main`, as a function of the filtered
mapping: keep the keys starting with `pre` and rewrite each key with
`k.replace(pre, "")`. -/
def objSpecOf (pre : String) (inc : List (String × PVal)) : List (String × PVal) :=
  (inc.filter (fun kv => startsWithStr kv.1 pre)).map
    (fun kv => (pyReplaceStr kv.1 pre "", kv.2))

/-- The kwargs mapping built for group `pre` from the module parameters. -/
def objSpec (pre : String) (params : String → PVal) : List (String × PVal) :=
  objSpecOf pre (spec_included params)

/-! ## panos_ha: desired object tree (from `main`) -/

/-- The five optional child classes of `HighAvailability` used by the module. -/
inductive HAClass where
  | HA1
  | HA1Backup
  | HA2
  | HA2Backup
  | HA3
deriving DecidableEq

/-- The `class_specs` association of `panos_ha.main`, in source order:
each optional child class with its parameter group's key prefix string. -/
def childSlots : List (HAClass × String) :=
  [(.HA1, "ha1_"), (.HA1Backup, "ha1b_"), (.HA2, "ha2_"),
   (.HA2Backup, "ha2b_"), (.HA3, "ha3_")]

/-- The group prefix string of each child class. -/
def slotPre : HAClass → String
  | .HA1 => "ha1_"
  | .HA1Backup => "ha1b_"
  | .HA2 => "ha2_"
  | .HA2Backup => "ha2b_"
  | .HA3 => "ha3_"

/-- `any(x is not None for x in cls_spec.values())` of `panos_ha.main`. -/
def anySet (spec : List (String × PVal)) : Bool :=
  spec.any (fun kv => kv.2.isSet)

/-- The desired `HighAvailability` object: the root kwargs plus the child
instances added to it (each child carried as its class with its kwargs). -/
structure HATree where
  rootSpec : List (String × PVal)
  children : List (HAClass × List (String × PVal))
deriving DecidableEq

/-- Desired-tree construction from the filtered mapping, mirroring
`panos_ha.main`: `obj = HighAvailability(**ha_obj_spec)`, then for each
`(cls_type, cls_spec)` of `class_specs` in order, add `cls_type(**cls_spec)`
if any value of `cls_spec` is not `None`. -/
def buildTreeOf (inc : List (String × PVal)) : HATree :=
  { rootSpec := objSpecOf "ha_" inc
    children :=
      (childSlots.filter (fun cs => anySet (objSpecOf cs.2 inc))).map
        (fun cs => (cs.1, objSpecOf cs.2 inc)) }

/-- Desired-tree construction from the module parameters. -/
def buildTree (params : String → PVal) : HATree :=
  buildTreeOf (spec_included params)

/-- Whether the desired tree carries a child instance of class `cls`. -/
def hasChild (t : HATree) (cls : HAClass) : Bool :=
  t.children.any (fun c => decide (c.1 = cls))

/-! ## panos_ha: reconciliation run (from `main`) -/

/-- The remote `HighAvailability` instance as returned by
`HighAvailability.refreshall`: its configurable fields (the module's root
group), plus any refreshed child instances. -/
structure ExistingHA where
  enabled : PVal
  group_id : PVal
  config_sync : PVal
  peer_ip : PVal
  peer_ip_backup : PVal
  mode : PVal
  passive_link_state : PVal
  state_sync : PVal
  ha2_keepalive : PVal
  ha2_keepalive_action : PVal
  ha2_keepalive_threshold : PVal
  device_id : PVal
  session_owner_selection : PVal
  session_setup : PVal
  tentative_hold_time : PVal
  sync_qos : PVal
  sync_virtual_router : PVal
  ip_hash_key : PVal
  children : List (HAClass × List (String × PVal))
deriving DecidableEq

/-- The desired object's `session_owner_selection` attribute:
`HighAvailability(**ha_obj_spec)` stores the kwargs value of that field. -/
def desiredSessionOwnerSelection (params : String → PVal) : PVal :=
  lookupField (objSpec "ha_" params) "session_owner_selection"

/-- The desired object's `session_setup` attribute. -/
def desiredSessionSetup (params : String → PVal) : PVal :=
  lookupField (objSpec "ha_" params) "session_setup"

/-- The listing patch of `panos_ha.main`: `if listing:` overwrite
`listing[0].session_owner_selection` and `listing[0].session_setup` with the
desired object's values; nothing else is touched. -/
def mutateListing (sos ss : PVal) : List ExistingHA → List ExistingHA
  | [] => []
  | x :: rest => { x with session_owner_selection := sos, session_setup := ss } :: rest

/-- The remote device contacts issued by one invocation, in order. -/
inductive RemoteEvent where
  | fetch
  | applyState
  | commitCall
deriving DecidableEq

/-- Outcome of `HighAvailability.refreshall(parent, add=False)`: either the
listing, or a raised `PanDeviceError` with its message. -/
inductive FetchOutcome where
  | ok (listing : List ExistingHA)
  | err (msg : String)

/-- Observable outcome of one `panos_ha.main` invocation. -/
structure RunResult where
  events : List RemoteEvent
  failed : Option String
  built : Option HATree
  parentChildren : List HATree
  finalListing : List ExistingHA
  changed : Option Bool

/-- One invocation of `panos_ha.main` after connection setup, as a function
of the module parameters and of the externally determined outcomes: the
fetch result, the `changed` flag `helper.apply_state` reports, and whether
`helper.commit` succeeds.  Mirrors the source order: fetch; on
`PanDeviceError` fail with "Failed refresh: ..." and stop; otherwise build
the desired tree, add it to the parent, patch the listing head, call
`apply_state`, and call `helper.commit` only if `commit` is truthy and the
response reported a change.  Modelled from the spec for the parts outside
`src/`: `module.fail_json` aborts the invocation, and a commit failure is
reported as an error while the applied change (and its `changed` flag)
stands. -/
def mainRun (params : String → PVal) (fetch : FetchOutcome)
    (applyChanged : Bool) (commitOk : Bool) : RunResult :=
  match fetch with
  | .err e =>
    { events := [.fetch]
      failed := some ("Failed refresh: " ++ e)
      built := Option.none
      parentChildren := []
      finalListing := []
      changed := Option.none }
  | .ok listing =>
    let obj := buildTree params
    let patched :=
      mutateListing (desiredSessionOwnerSelection params) (desiredSessionSetup params) listing
    let doCommit := (params "commit").truthy && applyChanged
    { events := [.fetch, .applyState] ++ (if doCommit then [.commitCall] else [])
      failed := if doCommit && !commitOk then some "Failed commit" else Option.none
      built := some obj
      parentChildren := [obj]
      finalListing := patched
      changed := some applyChanged }

/-! ## panos_gre_tunnel -/

/-- The keys of `sdk_params` in `panos_gre_tunnel.py`, in declaration order. -/
def greParamKeys : List String :=
  ["name", "interface", "local_address_type", "local_address_value",
   "peer_address", "tunnel_interface", "ttl", "copy_tos", "enable_keep_alive",
   "keep_alive_interval", "keep_alive_retry", "keep_alive_hold_timer",
   "disabled"]

/-- Schema defaults of the GRE tunnel `sdk_params`. -/
def greDefault : String → PVal
  | "local_address_type" => .str "ip"
  | "ttl" => .int 64
  | "keep_alive_interval" => .int 10
  | "keep_alive_retry" => .int 3
  | "keep_alive_hold_timer" => .int 5
  | _ => .none

/-- Modelled from the spec: `AnsibleModule` option handling for the GRE
tunnel schema, with the same supplied-value-over-default rule as for
`panos_ha` ("the default 64 is used only when ttl is not supplied"). -/
def greModuleParams (user : String → Option PVal) (k : String) : PVal :=
  match user k with
  | some v => if v = PVal.none then greDefault k else v
  | Option.none => greDefault k

/-- The desired `GreTunnel` field mapping built from the module parameters. -/
def greDesired (params : String → PVal) : List (String × PVal) :=
  greParamKeys.map (fun k => (k, params k))

/-- Result of the reconcile step for a GRE tunnel invocation. -/
structure GreResult where
  changed : Bool
  created : Option (List (String × PVal))
deriving DecidableEq

/-- Modelled from the spec: the reconcile step of `helper.process` (the
shared network-resource state machinery lives in the collection's
module_utils, not under `src/`).  Spec §4.3: locate the existing instance
whose identity (name) matches the desired instance; if absent, create the
desired object and report a change; if present and identical, report no
change; if present and different, update (whole-object replace) and report
a change. -/
def greReconcile (desired : List (String × PVal))
    (remote : List (List (String × PVal))) : GreResult :=
  match remote.find? (fun r => decide (lookupField r "name" = lookupField desired "name")) with
  | Option.none => { changed := true, created := some desired }
  | some r =>
    if r = desired then { changed := false, created := Option.none }
    else { changed := true, created := Option.none }

/-! ## Concrete scenario inputs -/

/-- Scenario C of the spec: only `ha1_port` is supplied. -/
def haScenUser : String → Option PVal :=
  fun k => if k = "ha1_port" then some (.str "ethernet1/1") else Option.none

/-- Scenario A of the spec: the documented GRE tunnel invocation, with
`ttl=42` supplied. -/
def greScenUser : String → Option PVal := fun k =>
  if k = "name" then some (.str "myGreTunnel")
  else if k = "interface" then some (.str "ethernet1/5")
  else if k = "local_address_value" then some (.str "10.1.1.1/24")
  else if k = "peer_address" then some (.str "192.168.1.1")
  else if k = "tunnel_interface" then some (.str "tunnel.7")
  else if k = "ttl" then some (.int 42)
  else Option.none

/-! ## Shared lemmas -/

/-- Pushing `any` over the first components through a filter-and-map of an
association list. -/
lemma any_filterMap_fst {α β γ : Type} (q : α → Bool) (P : α × β → Bool) (F : α × β → γ)
    (l : List (α × β)) :
    (((l.filter P).map (fun cs => (cs.1, F cs))).any (fun c => q c.1)) =
      l.any (fun cs => P cs && q cs.1) := by
  induction l with
  | nil => rfl
  | cons a l ih =>
    by_cases h : P a = true <;> simp [List.filter_cons, h, List.any_cons, ih, Bool.and_comm]

/-- A child class is carried by the desired tree exactly when some value of
its group's kwargs mapping is not `None`. -/
lemma hasChild_eq_anySet (params : String → PVal) (cls : HAClass) :
    hasChild (buildTree params) cls = anySet (objSpec (slotPre cls) params) := by
  unfold hasChild buildTree buildTreeOf
  rw [any_filterMap_fst (fun a => decide (a = cls)) _ (fun cs => objSpecOf cs.2 (spec_included params))]
  cases cls <;> simp [childSlots, slotPre, List.any_cons, objSpec]

/-- The HA2 group mapping, with the parameter function left opaque. -/
lemma objSpec_ha2_eq (params : String → PVal) :
    objSpec "ha2_" params =
      [("ip_address", params "ha2_ip_address"), ("netmask", params "ha2_netmask"),
       ("port", params "ha2_port"), ("gateway", params "ha2_gateway")] := rfl

/-- The six group key prefix strings of `panos_ha.main`, root first. -/
def groupPres : List String := ["ha_", "ha1_", "ha1b_", "ha2_", "ha2b_", "ha3_"]

/-- The root group mapping reads the `ha_session_owner_selection` parameter
into the `session_owner_selection` kwarg. -/
lemma desiredSOS_eq (params : String → PVal) :
    desiredSessionOwnerSelection params = params "ha_session_owner_selection" := rfl

/-- The root group mapping reads the `ha_session_setup` parameter into the
`session_setup` kwarg. -/
lemma desiredSS_eq (params : String → PVal) :
    desiredSessionSetup params = params "ha_session_setup" := rfl

/-- The desired GRE mapping reads the `ttl` parameter into the `ttl` field. -/
lemma lookupField_greDesired_ttl (params : String → PVal) :
    lookupField (greDesired params) "ttl" = params "ttl" := rfl

/-! ## Claims -/

/-- C1: each of the five child slots (HA1, HA1Backup, HA2, HA2Backup, HA3)
is constructed and added to the desired HighAvailability tree if and only if
at least one value of its sub-mapping is not `None`; and for the invocation
supplying only `ha1_port="ethernet1/1"`, the tree carries exactly an HA1
child with `port="ethernet1/1"` and every other HA1 field explicitly `None`
(plus the always-defaulted HA2 child), with HA1Backup, HA2Backup and HA3
absent. -/
theorem c1_child_slot_iff :
    (∀ (params : String → PVal) (cls : HAClass),
        hasChild (buildTree params) cls = anySet (objSpec (slotPre cls) params)) ∧
    (buildTree (moduleParams haScenUser)).children =
      [(.HA1, [("ip_address", .none), ("netmask", .none),
               ("port", .str "ethernet1/1"), ("gateway", .none)]),
       (.HA2, [("ip_address", .none), ("netmask", .none),
               ("port", .str "ha2-a"), ("gateway", .none)])] :=
  ⟨hasChild_eq_anySet, by decide⟩

/-- C2: every key of the filtered parameter mapping is assigned to exactly
one of the six partitions, and every argument-spec key is either excluded or
matches exactly one of the six group prefix strings (the `startswith` tests
are mutually exclusive over the declared keys). -/
theorem c2_partition_exact :
    ∀ k, k ∈ argSpecKeys →
      k ∈ excludeList ∨ (groupPres.filter (fun p => startsWithStr k p)).length = 1 := by
  decide

/-- Witness for C2 at the concrete key `ha1_port`. -/
theorem c2_partition_exact_witness :
    "ha1_port" ∈ excludeList ∨
      (groupPres.filter (fun p => startsWithStr "ha1_port" p)).length = 1 :=
  c2_partition_exact "ha1_port" (by decide)

/-- C3: when the remote listing is non-empty, the first listed existing
instance has exactly its `session_owner_selection` and `session_setup`
fields overwritten with the desired object's values before apply_state, the
other fields and the rest of the listing being untouched; when the listing
is empty nothing is mutated. -/
theorem c3_listing_patch :
    (∀ (params : String → PVal) (ac cOk : Bool) (x : ExistingHA) (rest : List ExistingHA),
        (mainRun params (.ok (x :: rest)) ac cOk).finalListing =
          { x with session_owner_selection := desiredSessionOwnerSelection params,
                   session_setup := desiredSessionSetup params } :: rest) ∧
    (∀ (params : String → PVal) (ac cOk : Bool),
        (mainRun params (.ok []) ac cOk).finalListing = []) :=
  ⟨fun _ _ _ _ _ => rfl, fun _ _ _ => rfl⟩

/-- C4: a `PanDeviceError` from the remote fetch aborts the invocation with
the "Failed refresh: ..." message and no state change — no desired tree is
built, nothing is added to the parent, and neither apply nor commit is
contacted. -/
theorem c4_fetch_error_aborts :
    ∀ (params : String → PVal) (ac cOk : Bool) (e : String),
      (mainRun params (.err e) ac cOk).failed = some ("Failed refresh: " ++ e) ∧
      (mainRun params (.err e) ac cOk).built = Option.none ∧
      (mainRun params (.err e) ac cOk).parentChildren = [] ∧
      (mainRun params (.err e) ac cOk).events = [.fetch] ∧
      RemoteEvent.applyState ∉ (mainRun params (.err e) ac cOk).events ∧
      RemoteEvent.commitCall ∉ (mainRun params (.err e) ac cOk).events ∧
      (mainRun params (.err e) ac cOk).changed = Option.none := by
  intro params ac cOk e
  refine ⟨rfl, rfl, rfl, rfl, ?_, ?_, rfl⟩ <;> simp [mainRun]

/-- C5: the commit action is issued exactly once if and only if the commit
option is truthy and apply_state reported a change; otherwise it is never
issued; and when it is issued it comes after the apply, so a commit failure
leaves the applied change live with the result still reporting
`changed=true`. -/
theorem c5_commit_gating :
    (∀ (params : String → PVal) (listing : List ExistingHA) (ac cOk : Bool),
        (mainRun params (.ok listing) ac cOk).events.count .commitCall =
          (if (params "commit").truthy && ac then 1 else 0)) ∧
    (∀ (params : String → PVal) (listing : List ExistingHA) (ac cOk : Bool),
        ((params "commit").truthy && ac) = true →
          (mainRun params (.ok listing) ac cOk).events =
            [.fetch, .applyState, .commitCall]) ∧
    (∀ (params : String → PVal) (listing : List ExistingHA) (ac cOk : Bool),
        ((params "commit").truthy && ac) = false →
          RemoteEvent.commitCall ∉ (mainRun params (.ok listing) ac cOk).events) ∧
    (∀ (params : String → PVal) (listing : List ExistingHA),
        (params "commit").truthy = true →
          (mainRun params (.ok listing) true false).failed = some "Failed commit" ∧
          (mainRun params (.ok listing) true false).changed = some true) := by
  refine ⟨?_, ?_, ?_, ?_⟩
  · intro params listing ac cOk
    by_cases h : ((params "commit").truthy && ac) = true <;>
      simp [mainRun, h, List.count_cons]
  · intro params listing ac cOk h
    simp [mainRun, h]
  · intro params listing ac cOk h
    simp [mainRun, h]
  · intro params listing h
    constructor <;> simp [mainRun, h]

/-- Witness for C5: with `commit=true`, `changed=true` and a failing commit,
the result still reports `changed=true` alongside the commit error. -/
theorem c5_commit_gating_witness :
    (mainRun (fun k => if k = "commit" then PVal.bool true else PVal.none)
        (.ok []) true false).failed = some "Failed commit" ∧
    (mainRun (fun k => if k = "commit" then PVal.bool true else PVal.none)
        (.ok []) true false).changed = some true :=
  c5_commit_gating.2.2.2 (fun k => if k = "commit" then PVal.bool true else PVal.none)
    [] (by decide)

/-- C6: on every successful-fetch invocation the desired tree is fully built
from the parameters alone (independent of the fetched listing) and added to
the parent, and the remote contact trace starts with exactly the single
fetch immediately followed by the apply — no device contact happens during
tree building. -/
theorem c6_build_before_apply :
    ∀ (params : String → PVal) (listing : List ExistingHA) (ac cOk : Bool),
      (mainRun params (.ok listing) ac cOk).built = some (buildTree params) ∧
      (mainRun params (.ok listing) ac cOk).parentChildren = [buildTree params] ∧
      (mainRun params (.ok listing) ac cOk).events.take 2 = [.fetch, .applyState] ∧
      (mainRun params (.ok listing) ac cOk).events.count .fetch = 1 ∧
      (mainRun params (.ok listing) ac cOk).events.count .applyState = 1 ∧
      (∀ (other : List ExistingHA),
          (mainRun params (.ok other) ac cOk).built =
            (mainRun params (.ok listing) ac cOk).built) := by
  intro params listing ac cOk
  refine ⟨rfl, rfl, rfl, ?_, ?_, fun _ => rfl⟩ <;>
    by_cases h : ((params "commit").truthy && ac) = true <;>
      simp [mainRun, h, List.count_cons]

/-- C7: for the documented GRE tunnel invocation (ttl=42 supplied) against a
remote with no matching object, the reconcile reports a change and issues
the create with ttl=42; the schema default 64 is taken exactly when ttl is
not supplied. -/
theorem c7_gre_ttl_precedence :
    greReconcile (greDesired (greModuleParams greScenUser)) [] =
        { changed := true, created := some (greDesired (greModuleParams greScenUser)) } ∧
    lookupField (greDesired (greModuleParams greScenUser)) "ttl" = .int 42 ∧
    lookupField (greDesired (greModuleParams greScenUser)) "name" = .str "myGreTunnel" ∧
    (∀ user : String → Option PVal, user "ttl" = Option.none →
        lookupField (greDesired (greModuleParams user)) "ttl" = .int 64) ∧
    (∀ (user : String → Option PVal) (v : PVal), user "ttl" = some v → v ≠ .none →
        lookupField (greDesired (greModuleParams user)) "ttl" = v) := by
  refine ⟨by decide, by decide, by decide, ?_, ?_⟩
  · intro user h
    rw [lookupField_greDesired_ttl]
    unfold greModuleParams
    rw [h]
    decide
  · intro user v h hv
    rw [lookupField_greDesired_ttl]
    unfold greModuleParams
    rw [h]
    simp [hv]

/-- Witness for C7's default clause: with no user-supplied options the
desired ttl is the schema default 64. -/
theorem c7_gre_ttl_precedence_witness :
    lookupField (greDesired (greModuleParams (fun _ => Option.none))) "ttl" = .int 64 :=
  c7_gre_ttl_precedence.2.2.2.1 (fun _ => Option.none) rfl

/-- C8: the desired tree (and every one of the six group mappings) is
independent of the values of the excluded connection/auth/state-control
options: two parameter functions agreeing on all non-excluded keys build
identical desired trees. -/
theorem c8_excluded_noninterference :
    ∀ (p1 p2 : String → PVal),
      (∀ k, k ∉ excludeList → p1 k = p2 k) →
        buildTree p1 = buildTree p2 ∧ ∀ pre, objSpec pre p1 = objSpec pre p2 := by
  intro p1 p2 h
  have hinc : spec_included p1 = spec_included p2 := by
    unfold spec_included
    apply List.map_congr_left
    intro k hk
    have hni : k ∉ excludeList := by
      have := (List.mem_filter.mp hk).2
      simpa using this
    rw [h k hni]
  exact ⟨by unfold buildTree; rw [hinc], fun pre => by unfold objSpec; rw [hinc]⟩

/-- Witness for C8: a parameter function putting noise on every excluded key
builds the same desired tree as the all-unset one. -/
theorem c8_excluded_noninterference_witness :
    buildTree (fun _ => PVal.none) =
        buildTree (fun k => if k ∈ excludeList then .str "noise" else .none) ∧
    ∀ pre, objSpec pre (fun _ => PVal.none) =
        objSpec pre (fun k => if k ∈ excludeList then .str "noise" else .none) :=
  c8_excluded_noninterference _ _ (by
    intro k hk
    simp [hk])

/-- C9: the HA2 child is constructed on every invocation — the schema
default `ha2_port="ha2-a"` keeps its sub-mapping non-empty of set values —
while with no options supplied the other four child slots are all omitted. -/
theorem c9_ha2_always_present :
    (∀ (user : String → Option PVal),
        hasChild (buildTree (moduleParams user)) .HA2 = true) ∧
    (buildTree (moduleParams (fun _ => Option.none))).children.map
        (fun c => c.1) = [.HA2] := by
  refine ⟨?_, by decide⟩
  intro user
  rw [hasChild_eq_anySet]
  show anySet (objSpec "ha2_" (moduleParams user)) = true
  rw [objSpec_ha2_eq]
  have h : (moduleParams user "ha2_port").isSet = true := by
    unfold moduleParams
    cases hu : user "ha2_port" with
    | none => decide
    | some v => cases v <;> first | decide | simp [PVal.isSet]
  simp [anySet, List.any_cons, h]

/-- C10: for every declared argument-spec key and the group prefix string it
starts with, `k.replace(p, "")` agrees with stripping only the leading
occurrence, because no declared key contains its group's prefix string at
any position other than the start. -/
theorem c10_replace_eq_strip :
    ∀ p, p ∈ groupPres → ∀ k, k ∈ argSpecKeys → startsWithStr k p = true →
      pyReplaceStr k p "" = stripLeading p k ∧
      containsSub (k.toList.drop 1) p.toList = false := by
  decide

/-- Witness for C10 at the concrete key `ha1_port` with its group prefix
string. -/
theorem c10_replace_eq_strip_witness :
    pyReplaceStr "ha1_port" "ha1_" "" = stripLeading "ha1_" "ha1_port" ∧
    containsSub ("ha1_port".toList.drop 1) "ha1_".toList = false :=
  c10_replace_eq_strip "ha1_" (by decide) "ha1_port" (by decide) (by decide)
